import Mathlib

/-
Shallow embedding of the NoteBuddy backend (a FastAPI + SQLAlchemy note-taking
service) and proofs about its credential store, token rotation, persistence
layer and request handlers.

Conventions of the embedding:
* Python strings that must be split or scanned character by character are
  modelled as `List Char` (abbreviated `Str`); other strings as `String`.
* `hashlib.sha256(...).hexdigest()` is an external one-way digest; it is passed
  to each definition as an explicit function argument `sha256hex : Str → Str`.
  Facts that in reality hold "with overwhelming probability" (absence of
  collisions) appear as explicit hypotheses on concrete digest values.
* `datetime.utcnow()` values are passed in as explicit `Int` timestamps
  (seconds); each request is modelled at one instant.
* Randomness (`secrets.token_hex`, `secrets.token_urlsafe`) is passed in as
  explicit salt / token arguments.
* The database is a record of four tables (lists of rows, in insertion order);
  SQL `WHERE` filters become `List.find?` / `List.filter`, `INSERT` appends,
  `UPDATE` maps over rows, `DELETE` filters rows out.
* A fallible Python operation returns `Except`; an uncaught Python `TypeError`
  is modelled by the `PyError` error type.
-/

abbrev Str := List Char

/- ===== app/auth.py : credential store ===== -/

/-- Python's `s.split("$")` for a one-character separator, used by
`verify_password` on the stored form `salt$digest`. -/
def splitDollar : Str → List Str
  | [] => [[]]
  | c :: cs =>
    if c = '$' then [] :: splitDollar cs
    else
      match splitDollar cs with
      | [] => [[c]]
      | h :: t => (c :: h) :: t

/-- Mirrors `auth.verify_password`: split the stored form on `$` into salt and digest,
recompute the digest of `plain_password + salt`, compare.  The bare `except:`
returning `False` corresponds to every shape of the split other than exactly
two parts. -/
def verify_password (sha256hex : Str → Str) (plain_password hashed_password : Str) : Bool :=
  match splitDollar hashed_password with
  | [salt, stored_hash] => sha256hex (plain_password ++ salt) == stored_hash
  | _ => false

/-- Mirrors `auth.get_password_hash`: a fresh random salt (here an explicit argument)
is combined with the password through the digest; stored form is
`salt$digest`. -/
def get_password_hash (sha256hex : Str → Str) (salt password : Str) : Str :=
  salt ++ '$' :: sha256hex (password ++ salt)

/-- Mirrors `auth.get_refresh_token_hash`: same primitive reused for refresh tokens. -/
def get_refresh_token_hash (sha256hex : Str → Str) (salt refresh_token : Str) : Str :=
  get_password_hash sha256hex salt refresh_token

/-- Mirrors `auth.verify_refresh_token`. -/
def verify_refresh_token (sha256hex : Str → Str) (refresh_token token_hash : Str) : Bool :=
  verify_password sha256hex refresh_token token_hash

theorem splitDollar_of_not_mem (s : Str) (h : '$' ∉ s) : splitDollar s = [s] := by
  induction s with
  | nil => rfl
  | cons c cs ih =>
    have hc : c ≠ '$' := fun hc => h (hc ▸ List.mem_cons_self c cs)
    have hcs : '$' ∉ cs := fun hm => h (List.mem_cons_of_mem c hm)
    simp only [splitDollar, if_neg hc, ih hcs]

theorem splitDollar_append (a b : Str) (ha : '$' ∉ a) :
    splitDollar (a ++ '$' :: b) = a :: splitDollar b := by
  induction a with
  | nil => simp [splitDollar]
  | cons c cs ih =>
    have hc : c ≠ '$' := fun hc => ha (hc ▸ List.mem_cons_self c cs)
    have hcs : '$' ∉ cs := fun hm => ha (List.mem_cons_of_mem c hm)
    have ih' := ih hcs
    simp only [List.cons_append, splitDollar, if_neg hc]
    rw [show cs.append ('$' :: b) = cs ++ '$' :: b from rfl, ih']

/-- Claim C5: for every password and every salt chosen when hashing, verifying
the password against the stored form produced by hashing that same password
succeeds.  The two hypotheses record that, as in the source, neither the salt
(`secrets.token_hex`) nor the digest (`hexdigest()`) contains the `$`
delimiter. -/
theorem c5_verify_of_hash (sha256hex : Str → Str) (salt p : Str)
    (hsalt : '$' ∉ salt) (hdig : '$' ∉ sha256hex (p ++ salt)) :
    verify_password sha256hex p (get_password_hash sha256hex salt p) = true := by
  unfold verify_password get_password_hash
  rw [splitDollar_append salt _ hsalt, splitDollar_of_not_mem _ hdig]
  simp

theorem c5_verify_of_hash_witness :
    ('$' ∉ (['a', 'b'] : Str)) ∧
    ('$' ∉ (fun s => 'h' :: s) ((['p', 'w'] : Str) ++ ['a', 'b'])) ∧
    verify_password (fun s => 'h' :: s) ['p', 'w']
      (get_password_hash (fun s => 'h' :: s) ['a', 'b'] ['p', 'w']) = true :=
  ⟨by decide, by decide,
    c5_verify_of_hash (fun s => 'h' :: s) ['a', 'b'] ['p', 'w'] (by decide) (by decide)⟩

/-- Claim C6: `verify_password` is a total Boolean function; on every stored
form that does not split into exactly a salt and a digest on the `$`
delimiter it returns `false` (the source catches the failed unpacking and
returns `False`; it never raises). -/
theorem c6_verify_malformed (sha256hex : Str → Str) (p s : Str)
    (h : (splitDollar s).length ≠ 2) : verify_password sha256hex p s = false := by
  unfold verify_password
  rcases hs : splitDollar s with _ | ⟨a, _ | ⟨b, _ | ⟨c, t⟩⟩⟩
  · rfl
  · rfl
  · exact absurd (by simp [hs]) h
  · rfl

theorem c6_verify_malformed_witness :
    ((splitDollar ['a', 'b', 'c']).length ≠ 2) ∧
    verify_password (fun s => s) ['p'] ['a', 'b', 'c'] = false :=
  ⟨by decide, c6_verify_malformed (fun s => s) ['p'] ['a', 'b', 'c'] (by decide)⟩

/- ===== app/models.py : table rows ===== -/

/-- A row of the `users` table.  Per `models.py`, `email`, `hashed_password`,
`language`, `first_name`, `last_name` and `created_at` are `nullable=False`
(so non-`Option` here); only `nick_name` and `gender` are nullable.
`language` has the SQLAlchemy column default `"Chinese"`; `first_name` and
`last_name` have no default. -/
structure UserRow where
  id : Nat
  email : String
  hashed_password : Str
  language : String
  first_name : String
  last_name : String
  nick_name : Option String
  gender : Option String
  created_at : Int
deriving DecidableEq, Repr

/-- A row of the `transcripts` table. -/
structure TranscriptRow where
  id : Nat
  title : String
  content : String
  user_id : Nat
  created_at : Int
  updated_at : Option Int
deriving DecidableEq, Repr

/-- A row of the `notes` table. -/
structure NoteRow where
  id : Nat
  title : String
  content : String
  transcript_id : Nat
  user_id : Nat
  created_at : Int
  updated_at : Option Int
deriving DecidableEq, Repr

/-- A row of the `refresh_tokens` table. -/
structure RefreshTokenRow where
  id : Nat
  user_id : Nat
  token_hash : Str
  expires_at : Int
  created_at : Int
deriving DecidableEq, Repr

/-- The relational store: the four tables, rows in insertion order. -/
structure DB where
  users : List UserRow
  transcripts : List TranscriptRow
  notes : List NoteRow
  refresh_tokens : List RefreshTokenRow
deriving DecidableEq, Repr

/- ===== app/schemas.py : request payloads ===== -/

/-- Mirrors `schemas.UserCreate` (registration payload). -/
structure UserCreate where
  email : String
  password : Str
  language : String
  first_name : String
  last_name : String
  nick_name : Option String
  gender : Option String
deriving DecidableEq, Repr

/-- Mirrors `schemas.UserUpdate` after `model_dump(exclude_unset=True)`: `some v` means
the field was supplied, `none` that it was omitted. -/
structure UserUpdate where
  language : Option String
  first_name : Option String
  last_name : Option String
  nick_name : Option String
  gender : Option String
deriving DecidableEq, Repr

/-- Mirrors `schemas.TranscriptCreate`. -/
structure TranscriptCreate where
  title : String
  content : String
deriving DecidableEq, Repr

/-- Mirrors `schemas.TranscriptUpdate` after `model_dump(exclude_unset=True)`. -/
structure TranscriptUpdate where
  title : Option String
  content : Option String
deriving DecidableEq, Repr

/-- Mirrors `schemas.NoteCreate`. -/
structure NoteCreate where
  title : String
  content : String
  transcript_id : Nat
deriving DecidableEq, Repr

/-- The plain dict handed to `crud.update_note`.  The note endpoints pass at
most `title`/`content`; the generation endpoint additionally passes
`created_at` and `updated_at` (the latter with value `None`, hence
`Option (Option Int)`: present-with-value vs absent). -/
structure NoteUpdateDict where
  title : Option String
  content : Option String
  created_at : Option Int
  updated_at : Option (Option Int)
deriving DecidableEq, Repr

/-- An uncaught Python exception.  `duplicateKeywordUpdatedAt` is the
`TypeError` raised by `.values(**note_update, updated_at=datetime.utcnow())`
when `note_update` itself carries an `updated_at` key.  `notNullViolation` is
the database IntegrityError raised when an INSERT leaves a `nullable=False`
column without a value. -/
inductive PyError where
  | duplicateKeywordUpdatedAt
  | notNullViolation
deriving DecidableEq, Repr

/- ===== app/crud.py : persistence layer ===== -/

/-- Mirrors `crud.get_user_by_email`. -/
def get_user_by_email (db : DB) (email : String) : Option UserRow :=
  db.users.find? (fun u => u.email == email)

/-- Mirrors `crud.get_user`. -/
def get_user (db : DB) (user_id : Nat) : Option UserRow :=
  db.users.find? (fun u => u.id == user_id)

/-- The column values carried by the `crud.create_user` INSERT, after
SQLAlchemy applies client-side column defaults to columns absent from
`.values(...)`: the operation supplies only `email`, `hashed_password` and
`created_at`; `language` gets its column default; `first_name`, `last_name`,
`nick_name` and `gender` are left without a value. -/
structure UserInsertValues where
  email : Option String
  hashed_password : Option Str
  language : Option String
  first_name : Option String
  last_name : Option String
  nick_name : Option String
  gender : Option String
  created_at : Option Int
deriving DecidableEq, Repr

/-- The INSERT built by `crud.create_user` (crud.py lines 12-16). -/
def create_user_insert_values (sha256hex : Str → Str) (salt : Str)
    (user : UserCreate) (now : Int) : UserInsertValues :=
  { email := some user.email,
    hashed_password := some (get_password_hash sha256hex salt user.password),
    language := some "Chinese",
    first_name := none, last_name := none, nick_name := none, gender := none,
    created_at := some now }

/-- The database executing one INSERT into `users` under the `models.py`
schema: every `nullable=False` column (`email`, `hashed_password`,
`language`, `first_name`, `last_name`, `created_at`) must carry a value or
the INSERT is rejected with an IntegrityError; the nullable `nick_name` and
`gender` may stay NULL.  `new_id` is the autoincrement key. -/
def insertUserRow (v : UserInsertValues) (new_id : Nat) : Except PyError UserRow :=
  match v.email, v.hashed_password, v.language, v.first_name, v.last_name, v.created_at with
  | some email, some hp, some lang, some fn, some ln, some ca =>
    .ok { id := new_id, email := email, hashed_password := hp, language := lang,
          first_name := fn, last_name := ln, nick_name := v.nick_name,
          gender := v.gender, created_at := ca }
  | _, _, _, _, _, _ => .error .notNullViolation

/-- Mirrors `crud.create_user`: execute the INSERT, then re-read the row by
its id.  Because the INSERT supplies no `first_name`/`last_name` and those
columns are NOT NULL with no default, the error branch is the one actually
taken. -/
def create_user (sha256hex : Str → Str) (salt : Str) (user : UserCreate)
    (now : Int) (new_id : Nat) (db : DB) : Except PyError (Option UserRow × DB) :=
  match insertUserRow (create_user_insert_values sha256hex salt user now) new_id with
  | .error e => .error e
  | .ok row =>
    let db' := { db with users := db.users ++ [row] }
    .ok (get_user db' new_id, db')

/-- Mirrors `crud.get_transcript`: filtered by both entity id and user id. -/
def get_transcript (db : DB) (transcript_id user_id : Nat) : Option TranscriptRow :=
  db.transcripts.find? (fun t => t.id == transcript_id && t.user_id == user_id)

/-- Mirrors `crud.create_transcript`. -/
def create_transcript (db : DB) (transcript : TranscriptCreate) (user_id : Nat)
    (now : Int) (new_id : Nat) : Option TranscriptRow × DB :=
  let row : TranscriptRow :=
    { id := new_id, title := transcript.title, content := transcript.content,
      user_id := user_id, created_at := now, updated_at := none }
  let db' := { db with transcripts := db.transcripts ++ [row] }
  (get_transcript db' new_id user_id, db')

/-- Mirrors `crud.update_transcript`: fetch scoped by user; if present, apply the
supplied fields and set `updated_at` to now. -/
def update_transcript (db : DB) (transcript_id : Nat)
    (transcript_update : TranscriptUpdate) (user_id : Nat) (now : Int) :
    Option TranscriptRow × DB :=
  match get_transcript db transcript_id user_id with
  | none => (none, db)
  | some _ =>
    let db' := { db with transcripts := db.transcripts.map (fun t =>
        if t.id == transcript_id && t.user_id == user_id then
          { t with title := transcript_update.title.getD t.title,
                   content := transcript_update.content.getD t.content,
                   updated_at := some now }
        else t) }
    (get_transcript db' transcript_id user_id, db')

/-- Mirrors `crud.get_note`: filtered by both entity id and user id. -/
def get_note (db : DB) (note_id user_id : Nat) : Option NoteRow :=
  db.notes.find? (fun n => n.id == note_id && n.user_id == user_id)

/-- Mirrors `crud.get_note_by_transcript`. -/
def get_note_by_transcript (db : DB) (transcript_id user_id : Nat) : Option NoteRow :=
  db.notes.find? (fun n => n.transcript_id == transcript_id && n.user_id == user_id)

/-- Mirrors `crud.create_note`. -/
def create_note (db : DB) (note : NoteCreate) (user_id : Nat) (now : Int)
    (new_id : Nat) : Option NoteRow × DB :=
  let row : NoteRow :=
    { id := new_id, title := note.title, content := note.content,
      transcript_id := note.transcript_id, user_id := user_id,
      created_at := now, updated_at := none }
  let db' := { db with notes := db.notes ++ [row] }
  (get_note db' new_id user_id, db')

/-- Mirrors `crud.update_note`: fetch scoped by user; if present, build
`.values(**note_update, updated_at=datetime.utcnow())` — which raises a
`TypeError` whenever `note_update` itself contains `updated_at` — and apply
it. -/
def update_note (db : DB) (note_id : Nat) (note_update : NoteUpdateDict)
    (user_id : Nat) (now : Int) : Except PyError (Option NoteRow × DB) :=
  match get_note db note_id user_id with
  | none => .ok (none, db)
  | some _ =>
    if note_update.updated_at.isSome then .error .duplicateKeywordUpdatedAt
    else
      let db' := { db with notes := db.notes.map (fun n =>
          if n.id == note_id && n.user_id == user_id then
            { n with title := note_update.title.getD n.title,
                     content := note_update.content.getD n.content,
                     created_at := note_update.created_at.getD n.created_at,
                     updated_at := some now }
          else n) }
      .ok (get_note db' note_id user_id, db')

/-- Mirrors `crud.update_note_with_answers`: overwrite title and content, set
`updated_at` to now, leave `created_at` alone. -/
def update_note_with_answers (db : DB) (note_id : Nat)
    (updated_title updated_content : String) (user_id : Nat) (now : Int) :
    Option NoteRow × DB :=
  match get_note db note_id user_id with
  | none => (none, db)
  | some _ =>
    let db' := { db with notes := db.notes.map (fun n =>
        if n.id == note_id && n.user_id == user_id then
          { n with title := updated_title, content := updated_content,
                   updated_at := some now }
        else n) }
    (get_note db' note_id user_id, db')

/-- Mirrors `crud.delete_note`: fetch scoped by user; if present, delete every row
matching both filters and return the pre-fetched row. -/
def delete_note (db : DB) (note_id user_id : Nat) : Option NoteRow × DB :=
  match get_note db note_id user_id with
  | none => (none, db)
  | some note =>
    (some note,
     { db with notes := db.notes.filter (fun n => !(n.id == note_id && n.user_id == user_id)) })

/-- Mirrors `crud.delete_transcript`: fetch scoped by user; if present, first delete
the associated note (if any), then delete the transcript rows matching both
filters; return the pre-fetched transcript. -/
def delete_transcript (db : DB) (transcript_id user_id : Nat) :
    Option TranscriptRow × DB :=
  match get_transcript db transcript_id user_id with
  | none => (none, db)
  | some transcript =>
    let db1 :=
      match get_note_by_transcript db transcript_id user_id with
      | some related_note => (delete_note db related_note.id user_id).2
      | none => db
    (some transcript,
     { db1 with transcripts :=
         db1.transcripts.filter (fun t => !(t.id == transcript_id && t.user_id == user_id)) })

/-- How `crud.update_user` applies one supplied profile field to a nullable
column. -/
def applyProfileField (supplied : Option String) (current : Option String) : Option String :=
  match supplied with
  | some v => some v
  | none => current

/-- How the supplied profile fields are applied to one User row: supplied
fields overwrite, omitted fields keep their prior values, and the identity and
credential columns are untouched. -/
def applyUserUpdate (user_update : UserUpdate) (u : UserRow) : UserRow :=
  { u with language := user_update.language.getD u.language,
           first_name := user_update.first_name.getD u.first_name,
           last_name := user_update.last_name.getD u.last_name,
           nick_name := applyProfileField user_update.nick_name u.nick_name,
           gender := applyProfileField user_update.gender u.gender }

/-- Modelled from the spec: `crud.update_user` is called by the profile
endpoint in `app/main.py` and by the test suite, but its definition is absent
from `app/crud.py`.  Per spec section 4.3, partial updates apply only the
supplied fields and omitted fields retain their prior values; the User row has
no `updated_at` column, so nothing else changes. -/
def update_user (db : DB) (user_id : Nat) (user_update : UserUpdate) :
    Option UserRow × DB :=
  match get_user db user_id with
  | none => (none, db)
  | some _ =>
    let db' := { db with users := db.users.map (fun u =>
        if u.id == user_id then applyUserUpdate user_update u else u) }
    (get_user db' user_id, db')

/- ===== app/main.py : request handlers ===== -/

/-- A client-facing failure: an `HTTPException` (status code and detail), or an
uncaught Python exception escaping the handler. -/
inductive ApiError where
  | http (statusCode : Nat) (detail : String)
  | python (e : PyError)
deriving DecidableEq, Repr

/-- The `TranscriptWithNote` response of `GET /transcripts/{id}`. -/
structure TranscriptWithNote where
  id : Nat
  title : String
  content : String
  user_id : Nat
  created_at : Int
  updated_at : Option Int
  note_id : Option Nat
deriving DecidableEq, Repr

/-- Mirrors `GET /transcripts/{transcript_id}` (`read_transcript`). -/
def read_transcript (db : DB) (transcript_id current_user_id : Nat) :
    Except ApiError TranscriptWithNote :=
  match get_transcript db transcript_id current_user_id with
  | none => .error (.http 404 "Transcript not found")
  | some transcript =>
    .ok { id := transcript.id, title := transcript.title,
          content := transcript.content, user_id := transcript.user_id,
          created_at := transcript.created_at, updated_at := transcript.updated_at,
          note_id := (get_note_by_transcript db transcript_id current_user_id).map (fun n => n.id) }

/-- Mirrors `GET /notes/{note_id}` (`read_note`). -/
def read_note (db : DB) (note_id current_user_id : Nat) : Except ApiError NoteRow :=
  match get_note db note_id current_user_id with
  | none => .error (.http 404 "Note not found")
  | some note => .ok note

/-- Python's `needle in haystack` substring test. -/
def strContains : Str → Str → Bool
  | [], needle => needle.isEmpty
  | h :: t, needle => needle.isPrefixOf (h :: t) || strContains t needle

/-- Mirrors `error_message.lower()`.  Python lower-cases full Unicode; the keywords
compared against are ASCII, for which `Char.toLower` agrees. -/
def lowerStr (s : String) : Str := s.toList.map Char.toLower

/-- The keyword classification block shared verbatim (up to the fallback
prefix) by the three AI endpoints: substring-match the lower-cased error text
against "API key"/"authorization", "connection"/"timeout", "quota"/"limit".
Note the needle `"API key"` keeps its capitals in the source while the
haystack is lower-cased. -/
def classify_ai_error (fallback_msg : String) (error_message : String) : String :=
  let m := lowerStr error_message
  if strContains m "API key".toList || strContains m "authorization".toList then
    "DeepSeek API authentication failed. Please check your API key configuration."
  else if strContains m "connection".toList || strContains m "timeout".toList then
    "Unable to connect to DeepSeek API. Please check your internet connection."
  else if strContains m "quota".toList || strContains m "limit".toList then
    "DeepSeek API quota exceeded. Please check your usage limits."
  else fallback_msg ++ error_message

/-- Mirrors `POST /transcripts/{id}/generate-note` (`generate_note_from_transcript`).
`ai_result` stands for the outcome of the external DeepSeek call (out of
scope): `.ok (title, content)` or `.error message` with the wrapped provider
message.  Only this handler consults `ENVIRONMENT`. -/
def generate_note_from_transcript (environment : String) (db : DB)
    (transcript_id current_user_id : Nat)
    (ai_result : Except String (String × String)) (now : Int) (new_note_id : Nat) :
    Except ApiError (NoteRow × DB) :=
  match get_transcript db transcript_id current_user_id with
  | none => .error (.http 404 "Transcript not found")
  | some _ =>
    let existing_note := get_note_by_transcript db transcript_id current_user_id
    match ai_result with
    | .error e =>
      let detail :=
        if environment == "Production" then "Internal error. Please contact the product team."
        else classify_ai_error "Error generating note: " e
      .error (.http 500 detail)
    | .ok (note_title, note_content) =>
      match existing_note with
      | some en =>
        match update_note db en.id
            { title := some note_title, content := some note_content,
              created_at := some now, updated_at := some none } current_user_id now with
        | .error e => .error (.python e)
        | .ok (some note, db') => .ok (note, db')
        | .ok (none, _) => .error (.http 500 "Internal Server Error")
      | none =>
        match create_note db
            { title := note_title, content := note_content, transcript_id := transcript_id }
            current_user_id now new_note_id with
        | (some note, db') => .ok (note, db')
        | (none, _) => .error (.http 500 "Internal Server Error")

/-- Mirrors `POST /notes/{id}/generate-questions` (`generate_follow_up_questions`).
This handler never consults `ENVIRONMENT`; the parameter is accepted only to
state environment-independence. -/
def generate_follow_up_questions (environment : String) (db : DB)
    (note_id current_user_id : Nat) (ai_result : Except String (List String)) :
    Except ApiError (List String) :=
  match get_note db note_id current_user_id with
  | none => .error (.http 404 "Note not found")
  | some _ =>
    match ai_result with
    | .error e => .error (.http 500 (classify_ai_error "Error generating questions: " e))
    | .ok questions => .ok questions

/-- Mirrors `POST /notes/{id}/update-with-answer` (`update_note_with_answer`).  This
handler never consults `ENVIRONMENT` either. -/
def update_note_with_answer (environment : String) (db : DB) (note_id : Nat)
    (question answer : String) (current_user_id : Nat)
    (ai_result : Except String (String × String)) (now : Int) :
    Except ApiError (NoteRow × DB) :=
  match get_note db note_id current_user_id with
  | none => .error (.http 404 "Note not found")
  | some _ =>
    if question == "" || answer == "" then
      .error (.http 400 "Both question and answer are required")
    else
      match ai_result with
      | .error e => .error (.http 500 (classify_ai_error "Error updating note: " e))
      | .ok (updated_title, updated_content) =>
        match update_note_with_answers db note_id updated_title updated_content
            current_user_id now with
        | (some n, db') => .ok (n, db')
        | (none, _) => .error (.http 500 "Internal Server Error")

/-- Mirrors `PUT /users/profile` (`update_user_profile`). -/
def update_user_profile (db : DB) (current_user_id : Nat)
    (user_update : UserUpdate) : Except ApiError (UserRow × DB) :=
  match update_user db current_user_id user_update with
  | (none, _) => .error (.http 404 "User not found")
  | (some u, db') => .ok (u, db')

/- ===== app/main.py : POST /auth/refresh ===== -/

def ACCESS_TOKEN_EXPIRE_MINUTES : Int := 30

def REFRESH_TOKEN_EXPIRE_DAYS : Int := 30

/-- The token pair returned by login/refresh. -/
structure TokenResponse where
  access_token : Str
  refresh_token : Str
  token_type : String
deriving DecidableEq, Repr

/-- The scan-and-rotate core of the refresh handler: walk the stored refresh
token rows in order, skip rows expired at `now` or whose hash does not verify
against the presented raw token, and overwrite the first match's hash, expiry
and creation time in place. -/
def scanAndRotate (sha256hex : Str → Str) (raw : Str) (now : Int)
    (new_hash : Str) (new_expires : Int) :
    List RefreshTokenRow → Option (RefreshTokenRow × List RefreshTokenRow)
  | [] => none
  | t :: ts =>
    if now < t.expires_at && verify_refresh_token sha256hex raw t.token_hash then
      some (t, { t with token_hash := new_hash, expires_at := new_expires, created_at := now } :: ts)
    else
      (scanAndRotate sha256hex raw now new_hash new_expires ts).map (fun r => (r.1, t :: r.2))

/-- Mirrors `POST /auth/refresh` (`refresh_token`).  `jwtEncode` stands for
`jwt.encode` with the server secret (sub claim, expiry); `new_token` and
`new_salt` are the fresh random values drawn inside the handler. -/
def refresh_token_endpoint (sha256hex : Str → Str) (jwtEncode : String → Int → Str)
    (db : DB) (raw_token : Str) (now : Int) (new_token new_salt : Str) :
    Except ApiError (TokenResponse × DB) :=
  match scanAndRotate sha256hex raw_token now
      (get_refresh_token_hash sha256hex new_salt new_token)
      (now + REFRESH_TOKEN_EXPIRE_DAYS * 86400) db.refresh_tokens with
  | none => .error (.http 401 "Invalid refresh token")
  | some (matching_token, tokens') =>
    match get_user db matching_token.user_id with
    | none => .error (.http 401 "User not found")
    | some user =>
      .ok ({ access_token := jwtEncode user.email (now + ACCESS_TOKEN_EXPIRE_MINUTES * 60),
             refresh_token := new_token, token_type := "bearer" },
           { db with refresh_tokens := tokens' })

/- ===== app/ai_services.py : response_format handling ===== -/

/-- The two pydantic `model_json_schema()` values the service builds:
`NoteBase.model_json_schema()` (flat `title`/`content` object) and the local
`QuestionsSchema.model_json_schema()` (`questions` list). -/
inductive JsonSchemaVal where
  | noteBase
  | questions
deriving DecidableEq, Repr

/-- The `response_format` dict: a `type` entry plus an optional `json_schema`
entry. -/
structure ResponseFormat where
  type : String
  json_schema : Option JsonSchemaVal
deriving DecidableEq, Repr

/-- The format `generate_note_from_transcript` and `update_note_with_answer`
hand to `_call_deepseek`. -/
def note_response_format : ResponseFormat :=
  { type := "json_schema", json_schema := some .noteBase }

/-- The format `generate_follow_up_questions` hands to `_call_deepseek`. -/
def questions_response_format : ResponseFormat :=
  { type := "json_schema", json_schema := some .questions }

/-- The `response_format` normalisation inside `_call_deepseek`: `None`
becomes `{"type": "text"}`; otherwise the dict is copied and its `type` entry
is overwritten with `"text"`. -/
def prepare_response_format : Option ResponseFormat → ResponseFormat
  | none => { type := "text", json_schema := none }
  | some rf => { rf with type := "text" }

/- ===== theorems ===== -/

/-- Claim C10, settled against the `models.py` schema: the `crud.create_user`
INSERT carries only the email, the freshly computed password hash and
`created_at` (plus the `language` column default), and never the payload's
`language`/`first_name`/`last_name`/`nick_name`/`gender` — but because
`first_name` and `last_name` are `nullable=False` with no default, the
database rejects every registration INSERT with an IntegrityError and no User
row is ever written, so the operation cannot produce the row the claim
describes. -/
theorem c10_create_user_rejected (sha256hex : Str → Str) (salt : Str)
    (user : UserCreate) (now : Int) (new_id : Nat) (db : DB) :
    create_user sha256hex salt user now new_id db = .error .notNullViolation ∧
    (create_user_insert_values sha256hex salt user now).email = some user.email ∧
    (create_user_insert_values sha256hex salt user now).hashed_password
      = some (get_password_hash sha256hex salt user.password) ∧
    (create_user_insert_values sha256hex salt user now).created_at = some now ∧
    (create_user_insert_values sha256hex salt user now).language = some "Chinese" ∧
    (create_user_insert_values sha256hex salt user now).first_name = none ∧
    (create_user_insert_values sha256hex salt user now).last_name = none ∧
    (create_user_insert_values sha256hex salt user now).nick_name = none ∧
    (create_user_insert_values sha256hex salt user now).gender = none :=
  ⟨rfl, rfl, rfl, rfl, rfl, rfl, rfl, rfl, rfl⟩

/-- Searching with a predicate in a list from which every row satisfying that
predicate was just filtered out finds nothing (SQL: a SELECT whose WHERE
clause repeats the WHERE clause of the preceding DELETE returns no rows). -/
theorem find?_of_filter_not {α : Type} (l : List α) (p : α → Bool) :
    (l.filter (fun x => !(p x))).find? p = none := by
  apply List.find?_eq_none.mpr
  intro x hx
  have h := (List.mem_filter.mp hx).2
  simpa using h

/-- Claim C3: tenant isolation.  For a transcript and a note owned by some
user, any distinct user `b` gets `404` (never the entity, never `403`) from
the read endpoints, and every scoped read/update/delete in the persistence
layer comes back empty and leaves the store untouched.  The uniqueness
hypotheses state that `id` is a primary key. -/
theorem c3_tenant_isolation (db : DB) (t : TranscriptRow) (n : NoteRow) (b : Nat)
    (tu : TranscriptUpdate) (nu : NoteUpdateDict) (ut uc : String) (now : Int)
    (ht : t ∈ db.transcripts)
    (htuniq : ∀ t' ∈ db.transcripts, t'.id = t.id → t' = t)
    (htb : t.user_id ≠ b)
    (hn : n ∈ db.notes)
    (hnuniq : ∀ n' ∈ db.notes, n'.id = n.id → n' = n)
    (hnb : n.user_id ≠ b) :
    get_transcript db t.id b = none ∧
    get_note db n.id b = none ∧
    read_transcript db t.id b = .error (.http 404 "Transcript not found") ∧
    read_note db n.id b = .error (.http 404 "Note not found") ∧
    update_transcript db t.id tu b now = (none, db) ∧
    delete_transcript db t.id b = (none, db) ∧
    update_note db n.id nu b now = .ok (none, db) ∧
    update_note_with_answers db n.id ut uc b now = (none, db) ∧
    delete_note db n.id b = (none, db) := by
  have hgt : get_transcript db t.id b = none := by
    apply List.find?_eq_none.mpr
    intro x hx
    simp only [Bool.and_eq_true, beq_iff_eq, not_and]
    intro hid hub
    rw [htuniq x hx hid] at hub
    exact htb hub
  have hgn : get_note db n.id b = none := by
    apply List.find?_eq_none.mpr
    intro x hx
    simp only [Bool.and_eq_true, beq_iff_eq, not_and]
    intro hid hub
    rw [hnuniq x hx hid] at hub
    exact hnb hub
  refine ⟨hgt, hgn, ?_, ?_, ?_, ?_, ?_, ?_, ?_⟩
  · simp [read_transcript, hgt]
  · simp [read_note, hgn]
  · simp [update_transcript, hgt]
  · simp [delete_transcript, hgt]
  · simp [update_note, hgn]
  · simp [update_note_with_answers, hgn]
  · simp [delete_note, hgn]

/-- Sample transcript row for the C3 witness. -/
def c3_t : TranscriptRow :=
  { id := 1, title := "t", content := "c", user_id := 1, created_at := 0, updated_at := none }

/-- Sample note row for the C3 witness. -/
def c3_n : NoteRow :=
  { id := 1, title := "nt", content := "nc", transcript_id := 1, user_id := 1,
    created_at := 0, updated_at := none }

/-- Sample store for the C3 witness: both rows owned by user 1; user 2 acts. -/
def c3_db : DB := { users := [], transcripts := [c3_t], notes := [c3_n], refresh_tokens := [] }

theorem c3_tenant_isolation_witness :
    c3_t ∈ c3_db.transcripts ∧
    (∀ t' ∈ c3_db.transcripts, t'.id = c3_t.id → t' = c3_t) ∧
    c3_t.user_id ≠ 2 ∧
    c3_n ∈ c3_db.notes ∧
    (∀ n' ∈ c3_db.notes, n'.id = c3_n.id → n' = c3_n) ∧
    c3_n.user_id ≠ 2 ∧
    get_transcript c3_db c3_t.id 2 = none ∧
    read_note c3_db c3_n.id 2 = .error (.http 404 "Note not found") := by
  refine ⟨by decide, by decide, by decide, by decide, by decide, by decide, ?_, ?_⟩
  · exact (c3_tenant_isolation c3_db c3_t c3_n 2 ⟨none, none⟩ ⟨none, none, none, none⟩
      "a" "b" 9 (by decide) (by decide) (by decide) (by decide) (by decide) (by decide)).1
  · exact (c3_tenant_isolation c3_db c3_t c3_n 2 ⟨none, none⟩ ⟨none, none, none, none⟩
      "a" "b" 9 (by decide) (by decide) (by decide) (by decide) (by decide)
      (by decide)).2.2.2.1

/-- Claim C7: deleting a transcript owned by the acting user succeeds,
removes the transcript, and deletes its associated note first when one
exists — so fetching that note id afterwards (same user) is not-found — while
with no associated note only the transcript rows are removed and nothing else
changes. -/
theorem c7_delete_transcript_cascade (db : DB) (tid uid : Nat) (t : TranscriptRow)
    (ht : get_transcript db tid uid = some t) :
    (delete_transcript db tid uid).1 = some t ∧
    get_transcript (delete_transcript db tid uid).2 tid uid = none ∧
    (∀ n, get_note_by_transcript db tid uid = some n →
       get_note (delete_transcript db tid uid).2 n.id uid = none ∧
       read_note (delete_transcript db tid uid).2 n.id uid
         = .error (.http 404 "Note not found")) ∧
    (get_note_by_transcript db tid uid = none →
       (delete_transcript db tid uid).2.notes = db.notes ∧
       (delete_transcript db tid uid).2.users = db.users ∧
       (delete_transcript db tid uid).2.refresh_tokens = db.refresh_tokens ∧
       (delete_transcript db tid uid).2.transcripts
         = db.transcripts.filter (fun tr => !(tr.id == tid && tr.user_id == uid))) := by
  cases hnb : get_note_by_transcript db tid uid with
  | none =>
    have hdel : delete_transcript db tid uid =
        (some t,
         { db with transcripts :=
             db.transcripts.filter (fun tr => !(tr.id == tid && tr.user_id == uid)) }) := by
      simp only [delete_transcript, ht, hnb]
    refine ⟨by rw [hdel], ?_, ?_, ?_⟩
    · rw [hdel]
      exact find?_of_filter_not db.transcripts _
    · intro n hcontra
      exact absurd hcontra (by simp [hnb])
    · intro _
      simp [hdel]
  | some n =>
    have hnb' : db.notes.find? (fun x => x.transcript_id == tid && x.user_id == uid) = some n := hnb
    have hnuid := List.find?_some hnb'
    have hmem : n ∈ db.notes := List.mem_of_find?_eq_some hnb'
    have hself : (n.id == n.id && n.user_id == uid) = true := by
      have h2 : (n.user_id == uid) = true := by
        simp only [Bool.and_eq_true] at hnuid
        exact hnuid.2
      simp [h2]
    obtain ⟨m, hm⟩ : ∃ m, get_note db n.id uid = some m := by
      cases hgm : get_note db n.id uid with
      | none =>
        have hgm' : db.notes.find? (fun x => x.id == n.id && x.user_id == uid) = none := hgm
        exact absurd hself (by simpa using List.find?_eq_none.mp hgm' n hmem)
      | some m => exact ⟨m, rfl⟩
    have hdeln : delete_note db n.id uid =
        (some m,
         { db with notes := db.notes.filter (fun x => !(x.id == n.id && x.user_id == uid)) }) := by
      unfold delete_note
      rw [hm]
    have hdel : delete_transcript db tid uid =
        (some t,
         { db with
             notes := db.notes.filter (fun x => !(x.id == n.id && x.user_id == uid)),
             transcripts :=
               db.transcripts.filter (fun tr => !(tr.id == tid && tr.user_id == uid)) }) := by
      simp only [delete_transcript, ht, hnb, hdeln]
    refine ⟨by rw [hdel], ?_, ?_, ?_⟩
    · rw [hdel]
      exact find?_of_filter_not db.transcripts _
    · intro n' hn'
      cases hn'
      have hgone : get_note (delete_transcript db tid uid).2 n.id uid = none := by
        rw [hdel]
        exact find?_of_filter_not db.notes _
      exact ⟨hgone, by simp [read_note, hgone]⟩
    · intro hcontra
      exact absurd hcontra (by simp [hnb])

/-- Sample data for the C7 witness: user 1 owns transcript 1 with note 5, and
transcript 2 with no note. -/
def c7_db : DB :=
  { users := [],
    transcripts :=
      [{ id := 1, title := "t1", content := "c1", user_id := 1, created_at := 0,
         updated_at := none },
       { id := 2, title := "t2", content := "c2", user_id := 1, created_at := 0,
         updated_at := none }],
    notes :=
      [{ id := 5, title := "n", content := "nc", transcript_id := 1, user_id := 1,
         created_at := 0, updated_at := none }],
    refresh_tokens := [] }

theorem c7_delete_transcript_cascade_witness :
    (get_transcript c7_db 1 1
      = some { id := 1, title := "t1", content := "c1", user_id := 1, created_at := 0,
               updated_at := none }) ∧
    (delete_transcript c7_db 1 1).1
      = some { id := 1, title := "t1", content := "c1", user_id := 1, created_at := 0,
               updated_at := none } ∧
    get_note (delete_transcript c7_db 1 1).2 5 1 = none := by
  have h := c7_delete_transcript_cascade c7_db 1 1
    { id := 1, title := "t1", content := "c1", user_id := 1, created_at := 0,
      updated_at := none } (by decide)
  refine ⟨by decide, h.1, ?_⟩
  have := h.2.2.1
    { id := 5, title := "n", content := "nc", transcript_id := 1, user_id := 1,
      created_at := 0, updated_at := none } (by decide)
  exact this.1

/-- Claim C9: for an authenticated user present in the store, the profile
update succeeds and returns the user with exactly the supplied fields
overwritten; omitted fields and the identity/credential columns keep their
prior values, and no other row or table is touched.  Settled against the
spec-modelled `update_user` (its definition is missing from `app/crud.py`). -/
theorem c9_update_user_profile (db : DB) (uid : Nat) (u : UserRow) (upd : UserUpdate)
    (hu : get_user db uid = some u) :
    update_user_profile db uid upd =
      .ok (applyUserUpdate upd u,
           { db with users := db.users.map (fun v =>
               if v.id == uid then applyUserUpdate upd v else v) }) ∧
    (∀ v, upd.language = some v → (applyUserUpdate upd u).language = v) ∧
    (upd.language = none → (applyUserUpdate upd u).language = u.language) ∧
    (∀ v, upd.first_name = some v → (applyUserUpdate upd u).first_name = v) ∧
    (upd.first_name = none → (applyUserUpdate upd u).first_name = u.first_name) ∧
    (∀ v, upd.last_name = some v → (applyUserUpdate upd u).last_name = v) ∧
    (upd.last_name = none → (applyUserUpdate upd u).last_name = u.last_name) ∧
    (∀ v, upd.nick_name = some v → (applyUserUpdate upd u).nick_name = some v) ∧
    (upd.nick_name = none → (applyUserUpdate upd u).nick_name = u.nick_name) ∧
    (∀ v, upd.gender = some v → (applyUserUpdate upd u).gender = some v) ∧
    (upd.gender = none → (applyUserUpdate upd u).gender = u.gender) ∧
    (applyUserUpdate upd u).id = u.id ∧
    (applyUserUpdate upd u).email = u.email ∧
    (applyUserUpdate upd u).hashed_password = u.hashed_password ∧
    (applyUserUpdate upd u).created_at = u.created_at := by
  have hu' : db.users.find? (fun x => x.id == uid) = some u := hu
  have huid := List.find?_some hu'
  have hpf : ((fun x : UserRow => x.id == uid) ∘
      (fun v => if v.id == uid then applyUserUpdate upd v else v))
      = (fun x : UserRow => x.id == uid) := by
    funext v
    by_cases hv : v.id = uid
    · simp [Function.comp_apply, applyUserUpdate, hv]
    · simp [Function.comp_apply, hv]
  have key : get_user
      { db with users := db.users.map (fun v =>
          if v.id == uid then applyUserUpdate upd v else v) } uid
      = some (applyUserUpdate upd u) := by
    have huid' : u.id = uid := by simpa using huid
    unfold get_user
    dsimp only
    rw [List.find?_map, hpf, hu']
    simp [huid']
  refine ⟨?_, ?_, ?_, ?_, ?_, ?_, ?_, ?_, ?_, ?_, ?_, ?_, ?_, ?_, ?_⟩
  · simp only [update_user_profile, update_user, hu, key]
  · intro v hv
    simp [applyUserUpdate, hv]
  · intro hv
    simp [applyUserUpdate, hv]
  · intro v hv
    simp [applyUserUpdate, applyProfileField, hv]
  · intro hv
    simp [applyUserUpdate, applyProfileField, hv]
  · intro v hv
    simp [applyUserUpdate, applyProfileField, hv]
  · intro hv
    simp [applyUserUpdate, applyProfileField, hv]
  · intro v hv
    simp [applyUserUpdate, applyProfileField, hv]
  · intro hv
    simp [applyUserUpdate, applyProfileField, hv]
  · intro v hv
    simp [applyUserUpdate, applyProfileField, hv]
  · intro hv
    simp [applyUserUpdate, applyProfileField, hv]
  · rfl
  · rfl
  · rfl
  · rfl

/-- Sample user row for the C9 witness. -/
def c9_u : UserRow :=
  { id := 1, email := "u@x.y", hashed_password := ['h'], language := "Chinese",
    first_name := "Ann", last_name := "Lee", nick_name := none, gender := none,
    created_at := 3 }

/-- Sample store for the C9 witness. -/
def c9_db : DB := { users := [c9_u], transcripts := [], notes := [], refresh_tokens := [] }

/-- Sample partial update for the C9 witness: only `language` and `nick_name`
are supplied. -/
def c9_upd : UserUpdate :=
  { language := some "English", first_name := none, last_name := none,
    nick_name := some "nn", gender := none }

theorem c9_update_user_profile_witness :
    get_user c9_db 1 = some c9_u ∧
    update_user_profile c9_db 1 c9_upd =
      .ok (applyUserUpdate c9_upd c9_u,
           { c9_db with users := c9_db.users.map (fun v =>
               if v.id == 1 then applyUserUpdate c9_upd v else v) }) :=
  ⟨by decide, (c9_update_user_profile c9_db 1 c9_u c9_upd (by decide)).1⟩

deriving instance DecidableEq for Except

/-- Store for claim C1: user 1 owns transcript 1 which already has note 1. -/
def c1_db : DB :=
  { users := [],
    transcripts :=
      [{ id := 1, title := "t", content := "c", user_id := 1, created_at := 0,
         updated_at := none }],
    notes :=
      [{ id := 1, title := "old", content := "oldc", transcript_id := 1, user_id := 1,
         created_at := 0, updated_at := none }],
    refresh_tokens := [] }

/-- Claim C1, evaluated at the failing input: regenerating the note of a
transcript that already has one does not overwrite it — the handler passes an
update dict containing `updated_at` into `crud.update_note`, whose
`.values(**note_update, updated_at=datetime.utcnow())` call raises `TypeError:
values() got multiple values for keyword argument updated_at`, so the request
aborts instead of returning the overwritten note. -/
theorem c1_regenerate_note_raises :
    generate_note_from_transcript "development" c1_db 1 1 (.ok ("T", "C")) 9 2
      = .error (.python .duplicateKeywordUpdatedAt) := by decide

/-- Store for claim C4: user 1 owns transcript 1 and note 1. -/
def c4_db : DB :=
  { users := [],
    transcripts :=
      [{ id := 1, title := "t", content := "c", user_id := 1, created_at := 0,
         updated_at := none }],
    notes :=
      [{ id := 1, title := "n", content := "nc", transcript_id := 1, user_id := 1,
         created_at := 0, updated_at := none }],
    refresh_tokens := [] }

/-- Claim C4 is false as stated: in Production mode an AI failure on the
generate-questions endpoint is still classified by keyword — here a "quota"
error yields the quota detail, not the single generic Production message. -/
theorem c4_production_counterexample :
    generate_follow_up_questions "Production" c4_db 1 1 (.error "quota exceeded")
      = .error (.http 500 "DeepSeek API quota exceeded. Please check your usage limits.") ∧
    "DeepSeek API quota exceeded. Please check your usage limits."
      ≠ "Internal error. Please contact the product team." :=
  ⟨by decide, by decide⟩

/-- Claim C4 (amended): only the generate-note endpoint collapses AI failures
to the generic message in Production; the generate-questions and
update-with-answer endpoints classify the error text by keyword regardless of
the environment, as does the generate-note endpoint outside Production. -/
theorem c4_error_surface (env : String) (db : DB) (tid nid uid : Nat) (e : String)
    (now : Int) (new_note_id : Nat) (t : TranscriptRow) (n : NoteRow) (q a : String)
    (ht : get_transcript db tid uid = some t)
    (hn : get_note db nid uid = some n)
    (hq : q ≠ "") (ha : a ≠ "") :
    (env = "Production" →
      generate_note_from_transcript env db tid uid (.error e) now new_note_id
        = .error (.http 500 "Internal error. Please contact the product team.")) ∧
    (env ≠ "Production" →
      generate_note_from_transcript env db tid uid (.error e) now new_note_id
        = .error (.http 500 (classify_ai_error "Error generating note: " e))) ∧
    generate_follow_up_questions env db nid uid (.error e)
      = .error (.http 500 (classify_ai_error "Error generating questions: " e)) ∧
    update_note_with_answer env db nid q a uid (.error e) now
      = .error (.http 500 (classify_ai_error "Error updating note: " e)) := by
  refine ⟨?_, ?_, ?_, ?_⟩
  · intro h
    subst h
    simp [generate_note_from_transcript, ht]
  · intro h
    have hb : (env == "Production") = false :=
      Bool.eq_false_iff.mpr (fun hh => h (by simpa using hh))
    simp [generate_note_from_transcript, ht, hb]
  · simp [generate_follow_up_questions, hn]
  · have hq' : (q == "") = false :=
      Bool.eq_false_iff.mpr (fun hh => hq (by simpa using hh))
    have ha' : (a == "") = false :=
      Bool.eq_false_iff.mpr (fun hh => ha (by simpa using hh))
    simp [update_note_with_answer, hn, hq', ha']

theorem c4_error_surface_witness :
    (get_transcript c4_db 1 1
      = some { id := 1, title := "t", content := "c", user_id := 1, created_at := 0,
               updated_at := none }) ∧
    (get_note c4_db 1 1
      = some { id := 1, title := "n", content := "nc", transcript_id := 1, user_id := 1,
               created_at := 0, updated_at := none }) ∧
    ("q" : String) ≠ "" ∧ ("a" : String) ≠ "" ∧
    (("Production" : String) = "Production" →
      generate_note_from_transcript "Production" c4_db 1 1 (.error "boom") 0 9
        = .error (.http 500 "Internal error. Please contact the product team.")) ∧
    (("Production" : String) ≠ "Production" →
      generate_note_from_transcript "Production" c4_db 1 1 (.error "boom") 0 9
        = .error (.http 500 (classify_ai_error "Error generating note: " "boom"))) ∧
    generate_follow_up_questions "Production" c4_db 1 1 (.error "boom")
      = .error (.http 500 (classify_ai_error "Error generating questions: " "boom")) ∧
    update_note_with_answer "Production" c4_db 1 "q" "a" 1 (.error "boom") 0
      = .error (.http 500 (classify_ai_error "Error updating note: " "boom")) := by
  refine ⟨by decide, by decide, by decide, by decide, ?_⟩
  exact c4_error_surface "Production" c4_db 1 1 1 "boom" 0 9
    { id := 1, title := "t", content := "c", user_id := 1, created_at := 0,
      updated_at := none }
    { id := 1, title := "n", content := "nc", transcript_id := 1, user_id := 1,
      created_at := 0, updated_at := none }
    "q" "a" (by decide) (by decide) (by decide) (by decide)

/-- Claim C8 is false as stated: the response_format actually passed to the
completion call does not preserve the caller's `json_schema` constraint — its
`type` entry has been overwritten. -/
theorem c8_response_format_counterexample :
    prepare_response_format (some note_response_format) ≠ note_response_format := by
  decide

/-- Claim C8 (amended): for each of the three operations (generate-note and
update-with-answer pass `note_response_format`, generate-questions passes
`questions_response_format`) the format handed to the completion call keeps
the caller's `json_schema` entry but its `type` is overwritten to `"text"`,
so the request is not made in `json_schema` mode. -/
theorem c8_response_format_overwritten :
    (prepare_response_format (some note_response_format)).json_schema
      = some JsonSchemaVal.noteBase ∧
    (prepare_response_format (some questions_response_format)).json_schema
      = some JsonSchemaVal.questions ∧
    (prepare_response_format (some note_response_format)).type = "text" ∧
    (prepare_response_format (some questions_response_format)).type = "text" ∧
    note_response_format.type = "json_schema" ∧
    questions_response_format.type = "json_schema" := by
  decide

theorem scanAndRotate_eq_some (sha256hex : Str → Str) (raw : Str) (now : Int)
    (nh : Str) (ne : Int) (l : List RefreshTokenRow) (m : RefreshTokenRow)
    (l' : List RefreshTokenRow)
    (h : scanAndRotate sha256hex raw now nh ne l = some (m, l')) :
    ∃ pre post,
      l = pre ++ m :: post ∧
      l' = pre ++ { m with token_hash := nh, expires_at := ne, created_at := now } :: post ∧
      (now < m.expires_at && verify_refresh_token sha256hex raw m.token_hash) = true := by
  induction l generalizing l' with
  | nil => simp [scanAndRotate] at h
  | cons t ts ih =>
    by_cases hp : (now < t.expires_at && verify_refresh_token sha256hex raw t.token_hash) = true
    · simp only [scanAndRotate, hp, if_true] at h
      obtain ⟨h1, h2⟩ := Prod.mk.injEq .. ▸ Option.some.inj h
      subst h1
      exact ⟨[], ts, rfl, h2.symm, hp⟩
    · have hp' : (now < t.expires_at && verify_refresh_token sha256hex raw t.token_hash)
          = false := Bool.eq_false_iff.mpr hp
      simp only [scanAndRotate, hp', Bool.false_eq_true, if_false] at h
      cases hrec : scanAndRotate sha256hex raw now nh ne ts with
      | none => rw [hrec] at h; simp at h
      | some r =>
        obtain ⟨m2, ts'⟩ := r
        rw [hrec] at h
        simp only [Option.map_some', Option.some.injEq, Prod.mk.injEq] at h
        obtain ⟨h1, h2⟩ := h
        subst h1
        obtain ⟨pre, post, he1, he2, hm⟩ := ih ts' hrec
        refine ⟨t :: pre, post, ?_, ?_, hm⟩
        · rw [List.cons_append, he1]
        · rw [← h2, List.cons_append, he2]

theorem scanAndRotate_eq_none (sha256hex : Str → Str) (raw : Str) (now : Int)
    (nh : Str) (ne : Int) (l : List RefreshTokenRow)
    (h : ∀ t ∈ l, (now < t.expires_at && verify_refresh_token sha256hex raw t.token_hash)
       = false) :
    scanAndRotate sha256hex raw now nh ne l = none := by
  induction l with
  | nil => rfl
  | cons t ts ih =>
    have ht := h t (List.mem_cons_self t ts)
    simp [scanAndRotate, ht, ih (fun x hx => h x (List.mem_cons_of_mem t hx))]

/-- A fresh hash of a different token does not verify the old raw token: the
crypto assumption is the explicit no-collision hypothesis on the digest. -/
theorem verify_new_hash_false (sha256hex : Str → Str) (raw new_token new_salt : Str)
    (hsalt : '$' ∉ new_salt) (hdig : '$' ∉ sha256hex (new_token ++ new_salt))
    (hcoll : sha256hex (raw ++ new_salt) ≠ sha256hex (new_token ++ new_salt)) :
    verify_refresh_token sha256hex raw
      (get_refresh_token_hash sha256hex new_salt new_token) = false := by
  unfold verify_refresh_token verify_password get_refresh_token_hash get_password_hash
  rw [splitDollar_append _ _ hsalt, splitDollar_of_not_mem _ hdig]
  show (sha256hex (raw ++ new_salt) == sha256hex (new_token ++ new_salt)) = false
  exact Bool.eq_false_iff.mpr (fun hh => hcoll (by simpa using hh))

/-- Claim C2: a successful refresh returns the new raw refresh token and an
access token for the owning user, replaces the matched record's hash and
expiry in place (no row added or removed), and afterwards presenting the old
raw refresh token again fails authentication with 401 — under the crypto
hypotheses that the digest does not collide on the two salted values and that
at most one stored hash matched the old raw token. -/
theorem c2_refresh_rotation (sha256hex : Str → Str) (jwtEncode : String → Int → Str)
    (db db' : DB) (raw new_token new_salt : Str) (now1 now2 : Int) (resp : TokenResponse)
    (hsucc : refresh_token_endpoint sha256hex jwtEncode db raw now1 new_token new_salt
       = .ok (resp, db'))
    (hsalt : '$' ∉ new_salt)
    (hdig : '$' ∉ sha256hex (new_token ++ new_salt))
    (hcoll : sha256hex (raw ++ new_salt) ≠ sha256hex (new_token ++ new_salt))
    (huniq : db.refresh_tokens.countP
       (fun t => verify_refresh_token sha256hex raw t.token_hash) ≤ 1) :
    resp.refresh_token = new_token ∧
    (∃ pre m post u,
       db.refresh_tokens = pre ++ m :: post ∧
       db'.refresh_tokens = pre ++
         { m with token_hash := get_refresh_token_hash sha256hex new_salt new_token,
                  expires_at := now1 + REFRESH_TOKEN_EXPIRE_DAYS * 86400,
                  created_at := now1 } :: post ∧
       get_user db m.user_id = some u ∧
       resp.access_token = jwtEncode u.email (now1 + ACCESS_TOKEN_EXPIRE_MINUTES * 60)) ∧
    (∀ nt ns, refresh_token_endpoint sha256hex jwtEncode db' raw now2 nt ns
       = .error (.http 401 "Invalid refresh token")) := by
  unfold refresh_token_endpoint at hsucc
  cases hscan : scanAndRotate sha256hex raw now1
      (get_refresh_token_hash sha256hex new_salt new_token)
      (now1 + REFRESH_TOKEN_EXPIRE_DAYS * 86400) db.refresh_tokens with
  | none =>
    simp only [hscan] at hsucc
    exact Except.noConfusion hsucc
  | some p =>
    obtain ⟨m, tokens'⟩ := p
    simp only [hscan] at hsucc
    cases huser : get_user db m.user_id with
    | none =>
      simp only [huser] at hsucc
      exact Except.noConfusion hsucc
    | some u =>
      simp only [huser, Except.ok.injEq, Prod.mk.injEq] at hsucc
      obtain ⟨hresp, hdb⟩ := hsucc
      subst hdb
      subst hresp
      obtain ⟨pre, post, hl, hl', hm⟩ :=
        scanAndRotate_eq_some _ _ _ _ _ _ _ _ hscan
      have hv : verify_refresh_token sha256hex raw m.token_hash = true := by
        simp only [Bool.and_eq_true] at hm
        exact hm.2
      have hcount := huniq
      have hsplit : List.countP
            (fun t => verify_refresh_token sha256hex raw t.token_hash) (m :: post)
          = List.countP
            (fun t => verify_refresh_token sha256hex raw t.token_hash) post + 1 :=
        List.countP_cons_of_pos _ _ hv
      rw [hl, List.countP_append, hsplit] at hcount
      have hpre0 : pre.countP
          (fun t => verify_refresh_token sha256hex raw t.token_hash) = 0 := by omega
      have hpost0 : post.countP
          (fun t => verify_refresh_token sha256hex raw t.token_hash) = 0 := by omega
      have hprenone : ∀ t ∈ pre,
          verify_refresh_token sha256hex raw t.token_hash = false := by
        intro t ht
        exact Bool.eq_false_iff.mpr (List.countP_eq_zero.mp hpre0 t ht)
      have hpostnone : ∀ t ∈ post,
          verify_refresh_token sha256hex raw t.token_hash = false := by
        intro t ht
        exact Bool.eq_false_iff.mpr (List.countP_eq_zero.mp hpost0 t ht)
      have hnewfalse :
          verify_refresh_token sha256hex raw
            (get_refresh_token_hash sha256hex new_salt new_token) = false :=
        verify_new_hash_false sha256hex raw new_token new_salt hsalt hdig hcoll
      refine ⟨rfl, ⟨pre, m, post, u, hl, hl', huser, rfl⟩, ?_⟩
      intro nt ns
      unfold refresh_token_endpoint
      rw [show ({ db with refresh_tokens := tokens' } : DB).refresh_tokens = tokens'
            from rfl, hl',
          scanAndRotate_eq_none]
      intro t ht
      rcases List.mem_append.mp ht with hin | hin
      · simp [hprenone t hin]
      · rcases List.mem_cons.mp hin with hin | hin
        · subst hin
          show (_ && verify_refresh_token sha256hex raw
            (get_refresh_token_hash sha256hex new_salt new_token)) = false
          simp [hnewfalse]
        · simp [hpostnone t hin]

/-- Concrete digest for the C2 witness. -/
def c2_sha : Str → Str := fun s => 'h' :: s

/-- Concrete JWT encoder for the C2 witness. -/
def c2_jwt : String → Int → Str := fun e _ => e.toList

/-- Stored hash of the raw refresh token `['r']` with salt `['s']`. -/
def c2_stored_hash : Str := get_password_hash c2_sha ['s'] ['r']

/-- Store for the C2 witness: one user, one live refresh token. -/
def c2_db : DB :=
  { users :=
      [{ id := 1, email := "u@x.y", hashed_password := ['x'], language := "Chinese",
         first_name := "A", last_name := "B", nick_name := none, gender := none,
         created_at := 0 }],
    transcripts := [], notes := [],
    refresh_tokens :=
      [{ id := 1, user_id := 1, token_hash := c2_stored_hash, expires_at := 100,
         created_at := 0 }] }

/-- Expected store after rotation in the C2 witness. -/
def c2_db2 : DB :=
  { c2_db with refresh_tokens :=
      [{ id := 1, user_id := 1, token_hash := get_refresh_token_hash c2_sha ['m'] ['n'],
         expires_at := 0 + REFRESH_TOKEN_EXPIRE_DAYS * 86400, created_at := 0 }] }

/-- Expected response in the C2 witness. -/
def c2_resp : TokenResponse :=
  { access_token := "u@x.y".toList, refresh_token := ['n'], token_type := "bearer" }

theorem c2_refresh_rotation_witness :
    (refresh_token_endpoint c2_sha c2_jwt c2_db ['r'] 0 ['n'] ['m']
       = .ok (c2_resp, c2_db2)) ∧
    '$' ∉ (['m'] : Str) ∧
    '$' ∉ c2_sha ((['n'] : Str) ++ ['m']) ∧
    c2_sha ((['r'] : Str) ++ ['m']) ≠ c2_sha ((['n'] : Str) ++ ['m']) ∧
    c2_db.refresh_tokens.countP
      (fun t => verify_refresh_token c2_sha ['r'] t.token_hash) ≤ 1 ∧
    (c2_resp.refresh_token = ['n'] ∧
     (∃ pre m post u,
        c2_db.refresh_tokens = pre ++ m :: post ∧
        c2_db2.refresh_tokens = pre ++
          { m with token_hash := get_refresh_token_hash c2_sha ['m'] ['n'],
                   expires_at := 0 + REFRESH_TOKEN_EXPIRE_DAYS * 86400,
                   created_at := 0 } :: post ∧
        get_user c2_db m.user_id = some u ∧
        c2_resp.access_token = c2_jwt u.email (0 + ACCESS_TOKEN_EXPIRE_MINUTES * 60)) ∧
     (∀ nt ns, refresh_token_endpoint c2_sha c2_jwt c2_db2 ['r'] 50 nt ns
        = .error (.http 401 "Invalid refresh token"))) :=
  ⟨by decide, by decide, by decide, by decide, by decide,
   c2_refresh_rotation c2_sha c2_jwt c2_db c2_db2 ['r'] ['n'] ['m'] 0 50 c2_resp
     (by decide) (by decide) (by decide) (by decide) (by decide)⟩
